import Mathlib

/-!
Shallow embedding of the Knowledge-Hub server's versioned document store.

The embedding follows the transactional controller (src/unnamed/part_004),
the rich mongoose Document/Version/Activity models (src/unnamed/part_006)
and the Gemini utility fallbacks (src/unnamed/part_001).  Machine-level
details that no claim depends on are modelled as follows:

* Mongo ObjectIds are `Nat`s.
* The AI collaborators (`summarizeText`, `generateTags`, `embedText`) are
  external services; mutations are parametrised over an `AIEnv` of pure
  functions, matching the spec's collaborator model.  The offline fallback
  of `summarizeText` is embedded concretely as `summarizeFallback`.
* The word-diff library (`diff.diffWords`) never contributes to a
  persisted value: createVersion builds its version object without a
  `diff` key and then assigns `newVersion.diff.<field>`, which throws a
  TypeError before the push, so the library's output is always discarded
  (see createVersion below).
* Timestamps, population of user references, and response pagination /
  `updatedAt` sorting are not modelled; `getDocuments` keeps exactly the
  membership behaviour of the mongo filter it builds (the free-text `q`
  regex branch belongs to the out-of-scope search feature).
-/

set_option maxRecDepth 8000

namespace KnowledgeHub

/-- User roles (auth.controller assigns role `user` or `admin`);
`member` models the string `user`. -/
inductive Role
  | admin
  | member
deriving DecidableEq, Repr

structure User where
  id : Nat
  role : Role
deriving DecidableEq, Repr

/-- The four per-field changed flags used by Version.changes and
Activity.changes (part_006).  All default to `false` as in the schema. -/
structure ChangeFlags where
  title : Bool := false
  content : Bool := false
  tags : Bool := false
  summary : Bool := false
deriving DecidableEq, Repr

/-- The per-version diff subdocument (part_006 VersionSchema.diff): four
String paths defaulting to "".  No code path ever populates it: the
assignments in createVersion target a missing `diff` key on the object
literal and throw before anything is stored. -/
structure VersionDiff where
  title : String := ""
  content : String := ""
  tags : String := ""
  summary : String := ""
deriving DecidableEq, Repr

/-- One entry of a document's embedded version ledger (part_006). -/
structure Version where
  versionNumber : Nat
  title : String
  content : String
  summary : String
  tags : List String
  editedBy : Nat
  changes : ChangeFlags
  diff : VersionDiff := {}
deriving DecidableEq, Repr

/-- A document record (part_006 DocumentSchema). -/
structure Doc where
  id : Nat
  title : String
  content : String
  summary : String
  tags : List String
  embedding : List Int
  currentVersion : Nat
  createdBy : Nat
  lastUpdatedBy : Nat
  versions : List Version
  isDeleted : Bool
deriving DecidableEq, Repr

inductive ActionKind
  | created
  | updated
  | deleted
  | version_created
deriving DecidableEq, Repr

/-- A before/after state snapshot stored in Activity.metadata. -/
structure Snapshot where
  title : String
  content : String
  summary : String
  tags : List String
deriving DecidableEq, Repr

/-- One append-only audit record (part_006 ActivitySchema). -/
structure Activity where
  action : ActionKind
  document : Nat
  documentTitle : String
  versionNumber : Nat
  user : Nat
  changes : ChangeFlags
  metaPrevious : Option Snapshot
  metaNew : Option Snapshot
deriving DecidableEq, Repr

/-- The persisted server state: the documents collection, the activities
collection, and the id counter used for newly created documents. -/
structure St where
  docs : List Doc
  activities : List Activity
  nextId : Nat
deriving DecidableEq, Repr

/-- Structured error response `{status, message}`. -/
structure ErrResp where
  code : Nat
  message : String
deriving DecidableEq, Repr

deriving instance DecidableEq for Except

/-- The AI collaborators of utils/gemini (part_001), treated as pure
external functions per the spec's collaborator model. -/
structure AIEnv where
  summarize : String → String
  genTags : String → Nat → List String
  embedv : String → List Int

/-- canModify (part_004 lines 7-9): admin or owner. -/
def canModify (u : User) (d : Doc) : Bool :=
  u.role == Role.admin || d.createdBy == u.id

/-- `Array.from(new Set(xs))`: deduplicate, keeping the first occurrence
of each element, in order. -/
def jsSetDedup (xs : List String) : List String :=
  xs.foldl (fun acc x => if x ∈ acc then acc else acc ++ [x]) []

/-- logActivity (part_004 lines 12-34): `Activity.create` wrapped in
try/catch; a failed write is logged and swallowed, so `ok = false` leaves
the log untouched and raises nothing.  The create call carries no mongoose
session, so the write is durable independently of the enclosing
transaction. -/
def logActivity (ok : Bool) (action : ActionKind) (d : Doc) (u : User)
    (vn : Option Nat) (ch : ChangeFlags) (metaPrev metaNew : Option Snapshot)
    (acts : List Activity) : List Activity :=
  if ok then
    acts ++ [{ action := action, document := d.id, documentTitle := d.title,
               versionNumber := vn.getD d.currentVersion, user := u.id,
               changes := ch, metaPrevious := metaPrev, metaNew := metaNew }]
  else acts

/-- The JavaScript TypeError raised by assigning a property of
`undefined`. -/
inductive JsError
  | typeError
deriving DecidableEq, Repr

/-- Document.methods.createVersion (part_006 lines 230-300).  It bumps
the counter and builds `newVersion` as a plain object literal with no
`diff` key; when a previous version exists (`this.versions.length > 0`)
and any change flag is set, the first taken branch assigns
`newVersion.diff.<field>` on that missing key — setting a property of
`undefined` — and throws TypeError before the push and save are reached
(the `diff.diffWords` results computed for title/content are discarded by
the throw).  Both callers catch the error, abort the transaction and
return 500, so the in-memory counter bump is never persisted: the error
case is modelled as `.error .typeError` with no state change.  Only when
the ledger is empty, or no flag is set, does the push (and the slice to
the last 10 entries) happen, with the diff left at its schema default. -/
def createVersion (d : Doc) (u : User) (ch : ChangeFlags) :
    Except JsError (Doc × Version) :=
  let cv := d.currentVersion + 1
  let base : Version :=
    { versionNumber := cv, title := d.title, content := d.content,
      summary := d.summary, tags := d.tags, editedBy := u.id, changes := ch }
  match d.versions.getLast? with
  | some _ =>
    if ch.title || ch.content || ch.tags || ch.summary then
      .error .typeError
    else
      let vs := d.versions ++ [base]
      let vs2 := if vs.length > 10 then vs.drop (vs.length - 10) else vs
      .ok ({ d with currentVersion := cv, lastUpdatedBy := u.id, versions := vs2 },
           base)
  | none =>
    let vs := d.versions ++ [base]
    let vs2 := if vs.length > 10 then vs.drop (vs.length - 10) else vs
    .ok ({ d with currentVersion := cv, lastUpdatedBy := u.id, versions := vs2 },
         base)

/-- The DocumentSchema pre-save hook (part_006 lines 319-338): a new document
gets version 1 pushed, snapshotting its fields, with all four change
flags true and the diff left at its (empty) default. -/
def preSaveNew (d : Doc) : Doc :=
  { d with versions := d.versions ++ [{
      versionNumber := 1, title := d.title, content := d.content,
      summary := d.summary, tags := d.tags, editedBy := d.createdBy,
      changes := { title := true, content := true, tags := true, summary := true } }] }

/-- Document.findById over the embedded state. -/
def findById (st : St) (docId : Nat) : Option Doc :=
  st.docs.find? (fun d => d.id == docId)

/-- Persisting a loaded document: replace the record with the same id. -/
def saveDoc (st : St) (d : Doc) : St :=
  { st with docs := st.docs.map (fun x => if x.id == d.id then d else x) }

/-- createDocument (part_004 lines 36-83).  Validation rejects empty title
or content; the AI collaborators run; the document is built with
`tags: tags || autoTags` (caller tags, when present, replace the AI tags;
an empty caller array is truthy in JS and also replaces them); the
pre-save hook pushes version 1; logActivity records `created`. -/
def createDocument (env : AIEnv) (actOk : Bool) (u : User)
    (title content : String) (tags : Option (List String)) (st : St) :
    Except ErrResp (St × Doc) :=
  if title == "" || content == "" then
    .error ⟨400, "Title and content are required"⟩
  else
    let summary := env.summarize content
    let autoTags := env.genTags (title ++ "\n" ++ content) 6
    let embedding := env.embedv (title ++ "\n" ++ content)
    let d : Doc :=
      { id := st.nextId, title := title, content := content, summary := summary,
        tags := tags.getD autoTags, embedding := embedding,
        currentVersion := 1, createdBy := u.id, lastUpdatedBy := u.id,
        versions := [], isDeleted := false }
    let d2 := preSaveNew d
    let acts := logActivity actOk .created d2 u none {} none none st.activities
    .ok ({ docs := st.docs ++ [d2], activities := acts, nextId := st.nextId + 1 }, d2)

/-- The tags expression of the legacy createDocument
(src/src/controllers/document.controller.js line 51): caller tags merged
with AI tags, deduplicated, capped at 10. -/
def legacyCreateTags (env : AIEnv) (title content : String)
    (tags : Option (List String)) : List String :=
  (jsSetDedup ((tags.getD []) ++ env.genTags (title ++ "\n" ++ content) 6)).take 10

/-- The change-tracking, patch and AI-recompute stage of updateDocument
(part_004 lines 150-188): computes the changed-field flags by comparing
patch values to current values (`JSON.stringify` comparison for tags,
i.e. order-sensitive list equality), applies the provided patch fields,
and — when title or content changed — recomputes summary/embedding and,
if the caller sent no tags (`if (!tags)`; an empty array is truthy),
merges the AI tags in, deduplicated and capped at 10.  Returns the
updated document and the final change flags. -/
def applyPatchAndAI (env : AIEnv) (d0 : Doc)
    (title content : Option String) (tags : Option (List String)) :
    Doc × ChangeFlags :=
  let chTitle := match title with | none => false | some t => !(t == d0.title)
  let chContent := match content with | none => false | some c => !(c == d0.content)
  let chTags0 := match tags with | none => false | some g => !(g == d0.tags)
  let d1 : Doc := { d0 with title := title.getD d0.title,
                            content := content.getD d0.content,
                            tags := tags.getD d0.tags }
  if chContent || chTitle then
    let summary := env.summarize d1.content
    let autoTags := env.genTags (d1.title ++ "\n" ++ d1.content) 6
    let embedding := env.embedv (d1.title ++ "\n" ++ d1.content)
    let chSummary := !(d1.summary == summary)
    let d2 : Doc := { d1 with summary := summary, embedding := embedding }
    if tags.isNone then
      let newTags := (jsSetDedup (d2.tags ++ autoTags)).take 10
      let chTags := chTags0 || !(newTags == d2.tags)
      ({ d2 with tags := newTags }, ⟨chTitle, chContent, chTags, chSummary⟩)
    else (d2, ⟨chTitle, chContent, chTags0, chSummary⟩)
  else (d1, ⟨chTitle, chContent, chTags0, false⟩)

/-- updateDocument (part_004 lines 130-227): lookup and ownership checks,
then the patch-and-AI stage (applyPatchAndAI); if any change flag is set,
createVersion is invoked — when it throws the TypeError, the catch block
aborts the transaction and responds 500 with nothing persisted (the
logActivity call is never reached); when it returns, an `updated`
activity is logged with before/after snapshots.  On the no-change path
only `lastUpdatedBy` is set and the document saved. -/
def updateDocument (env : AIEnv) (actOk : Bool) (u : User) (docId : Nat)
    (title content : Option String) (tags : Option (List String)) (st : St) :
    Except ErrResp (St × Doc) :=
  match findById st docId with
  | none => .error ⟨404, "Document not found"⟩
  | some d0 =>
    if !(canModify u d0) then .error ⟨403, "Forbidden"⟩
    else
      let prev : Snapshot := ⟨d0.title, d0.content, d0.summary, d0.tags⟩
      let step2 := applyPatchAndAI env d0 title content tags
      let ch := step2.2
      if ch.title || ch.content || ch.tags || ch.summary then
        match createVersion step2.1 u ch with
        | .error _ => .error ⟨500, "Failed to update document"⟩
        | .ok dv =>
          let d3 := dv.1
          let post : Snapshot := ⟨d3.title, d3.content, d3.summary, d3.tags⟩
          let acts := logActivity actOk .updated d3 u (some d3.currentVersion) ch
                        (some prev) (some post) st.activities
          let d4 := { d3 with lastUpdatedBy := u.id }
          .ok (saveDoc { st with activities := acts } d4, d4)
      else
        let d4 := { step2.1 with lastUpdatedBy := u.id }
        .ok (saveDoc st d4, d4)

/-- deleteDocument (part_004 lines 229-264): ownership-gated; logs the
`deleted` activity, then soft-deletes (part_006 softDelete sets
isDeleted). -/
def deleteDocument (actOk : Bool) (u : User) (docId : Nat) (st : St) :
    Except ErrResp St :=
  match findById st docId with
  | none => .error ⟨404, "Document not found"⟩
  | some d =>
    if !(canModify u d) then .error ⟨403, "Forbidden"⟩
    else
      let acts := logActivity actOk .deleted d u none {} none none st.activities
      let d2 := { d with isDeleted := true }
      .ok (saveDoc { st with activities := acts } d2)

/-- restoreVersion (part_004 lines 368-452): after lookup and ownership
checks, calls `createVersion` with all four flags true to snapshot the
current state.  Whenever the target version was found the ledger is
nonempty, so that call throws the TypeError and the catch block aborts
the transaction and responds 500 — the overwrite, save and logActivity
below it are dead code for every reachable input.  They are still
modelled as written: on a (never reachable) successful createVersion the
fields are overwritten from the target snapshot and a `version_created`
activity is logged whose `previousVersion` metadata is read from the
document fields after the overwrite (hence equal to the target snapshot,
as in the source). -/
def restoreVersion (actOk : Bool) (u : User) (docId vn : Nat) (st : St) :
    Except ErrResp (St × Doc) :=
  match findById st docId with
  | none => .error ⟨404, "Document not found"⟩
  | some d =>
    if !(canModify u d) then .error ⟨403, "Forbidden"⟩
    else
      match d.versions.find? (fun v => v.versionNumber == vn) with
      | none => .error ⟨404, "Version not found"⟩
      | some target =>
        match createVersion d u
            { title := true, content := true, tags := true, summary := true } with
        | .error _ => .error ⟨500, "Failed to restore document version"⟩
        | .ok dv =>
          let d1 := dv.1
          let d2 := { d1 with title := target.title, content := target.content,
                              summary := target.summary, tags := target.tags,
                              lastUpdatedBy := u.id }
          let post : Snapshot := ⟨d2.title, d2.content, d2.summary, d2.tags⟩
          let tgt : Snapshot :=
            ⟨target.title, target.content, target.summary, target.tags⟩
          let acts := logActivity actOk .version_created d2 u
            (some d2.currentVersion)
            { title := true, content := true, tags := true, summary := true }
            (some post) (some tgt) st.activities
          .ok (saveDoc { st with activities := acts } d2, d2)

/-- forceTags (part_004 lines 279-291): recompute AI tags, merge with the
current tags, deduplicate, cap at 10; no version, no activity. -/
def forceTags (env : AIEnv) (u : User) (docId : Nat) (st : St) :
    Except ErrResp (St × Doc) :=
  match findById st docId with
  | none => .error ⟨404, "Document not found"⟩
  | some d =>
    if !(canModify u d) then .error ⟨403, "Forbidden"⟩
    else
      let newTags := env.genTags (d.title ++ "\n" ++ d.content) 6
      let d2 := { d with tags := (jsSetDedup (d.tags ++ newTags)).take 10 }
      .ok (saveDoc st d2, d2)

/-- The mongo filter built by getDocuments (part_004 lines 85-118) for the
`mine`/`tags`/`tag` query parameters.  Note that no `isDeleted` condition
is ever added. -/
def documentMatches (mine : Option Nat) (tagsQ : Option (List String))
    (tagQ : Option String) (d : Doc) : Bool :=
  (match mine with | some uid => d.createdBy == uid | none => true) &&
  (match tagsQ with
   | some ts => ts.any (fun t => d.tags.contains t)
   | none => match tagQ with | some t => d.tags.contains t | none => true)

/-- getDocuments (part_004 lines 85-118), restricted to the filter's
membership behaviour (sorting and pagination omitted; the free-text `q`
branch belongs to the out-of-scope search feature and is not modelled). -/
def getDocuments (mine : Option Nat) (tagsQ : Option (List String))
    (tagQ : Option String) (st : St) : List Doc :=
  st.docs.filter (documentMatches mine tagsQ tagQ)

/-- DocumentSchema.statics.findActive (part_006 lines 309-311): the
explicitly non-deleted scope, which getDocuments does not use. -/
def findActive (st : St) : List Doc :=
  st.docs.filter (fun d => !d.isDeleted)

/-- Audit query: all activity records referencing a document id.  Nothing
ever removes entries from `St.activities`. -/
def activitiesForDoc (st : St) (docId : Nat) : List Activity :=
  st.activities.filter (fun a => a.document == docId)

/-- The offline fallback of summarizeText (part_001 lines 18-32):
`text.length > 220 ? text.slice(0, 200) + '…' : text`. -/
def summarizeFallback (text : String) : String :=
  if text.length > 220 then (text.take 200) ++ "…" else text

/-- summarizeText (part_001): when the Gemini client is unavailable
(`ready = false`) or the API call fails (`ai text = none`), the fallback
is returned; otherwise the model's response text. -/
def summarizeText (ready : Bool) (ai : String → Option String) (text : String) :
    String :=
  if ready then
    match ai text with
    | some s => s
    | none => summarizeFallback text
  else summarizeFallback text

/-- Degraded AI environment: `summarize` is the embedded offline fallback;
the tag and embedding collaborators are instantiated trivially (any pure
function is a legal collaborator under the spec's model). -/
def degradedAI : AIEnv :=
  { summarize := summarizeFallback, genTags := fun _ _ => [], embedv := fun _ => [] }

/-- A non-admin user who owns the fixture documents. -/
def owner : User := { id := 1, role := Role.member }

def stEmpty : St := { docs := [], activities := [], nextId := 7 }

/-- A retained ledger entry with the given snapshot fields. -/
def mkVer (n : Nat) (t ct sm : String) (tg : List String) : Version :=
  { versionNumber := n, title := t, content := ct, summary := sm, tags := tg,
    editedBy := 1, changes := {} }

/-- A document currently at version 5 (title "A") that still retains
version 2 (title "B") in its ledger. -/
def docC1 : Doc :=
  { id := 7, title := "A", content := "ac", summary := "as", tags := ["at"],
    embedding := [], currentVersion := 5, createdBy := 1, lastUpdatedBy := 1,
    versions := [mkVer 2 "B" "bc" "bs" ["bt"], mkVer 3 "A3" "c3" "s3" [],
                 mkVer 4 "A4" "c4" "s4" [], mkVer 5 "A" "ac" "as" ["at"]],
    isDeleted := false }

def stC1 : St := { docs := [docC1], activities := [], nextId := 8 }

/-- The state after creating a document (id 7) with content "b0". -/
def c3Init : St :=
  match createDocument degradedAI true owner "T" "b0" none stEmpty with
  | .ok p => p.1
  | .error _ => stEmpty

/-- The document persisted by the initial create of the C3 scenario. -/
def c3Doc : Doc :=
  { id := 7, title := "T", content := "b0", summary := "b0", tags := [],
    embedding := [], currentVersion := 1, createdBy := 1, lastUpdatedBy := 1,
    versions := [{ versionNumber := 1, title := "T", content := "b0",
                   summary := "b0", tags := [], editedBy := 1,
                   changes := ⟨true, true, true, true⟩ }],
    isDeleted := false }

def c3Contents : List String :=
  ["b1", "b2", "b3", "b4", "b5", "b6", "b7", "b8", "b9", "b10", "b11"]

/-- The state after 11 attempted content-changing updates to document 7
(each response feeds the next attempt; a 500 leaves the state as it
was). -/
def c3Final : St :=
  c3Contents.foldl
    (fun st ct =>
      match updateDocument degradedAI true owner 7 none (some ct) none st with
      | .ok p => p.1
      | .error _ => st) c3Init

/-- A document with tags ["a", "b"] and a single ledger entry. -/
def docC4 : Doc :=
  { id := 3, title := "t", content := "c", summary := "s", tags := ["a", "b"],
    embedding := [], currentVersion := 1, createdBy := 1, lastUpdatedBy := 1,
    versions := [{ versionNumber := 1, title := "t", content := "c", summary := "s",
                   tags := ["a", "b"], editedBy := 1,
                   changes := ⟨true, true, true, true⟩ }],
    isDeleted := false }

def stC4 : St := { docs := [docC4], activities := [], nextId := 4 }

/-- AI environment whose tag collaborator suggests ["y"]. -/
def envC5 : AIEnv :=
  { summarize := fun _ => "", genTags := fun _ _ => ["y"], embedv := fun _ => [] }

def docC7 : Doc :=
  { id := 9, title := "t9", content := "c9", summary := "", tags := [],
    embedding := [], currentVersion := 1, createdBy := 1, lastUpdatedBy := 1,
    versions := [{ versionNumber := 1, title := "t9", content := "c9", summary := "",
                   tags := [], editedBy := 1, changes := ⟨true, true, true, true⟩ }],
    isDeleted := false }

def actC7 : Activity :=
  { action := .created, document := 9, documentTitle := "t9", versionNumber := 1,
    user := 1, changes := {}, metaPrevious := none, metaNew := none }

def stC7 : St := { docs := [docC7], activities := [actC7], nextId := 10 }

/-- The state after soft-deleting document 9. -/
def stC7del : St :=
  match deleteDocument true owner 9 stC7 with
  | .ok s => s
  | .error _ => stC7

def s210 : String := String.mk (List.replicate 210 'x')

def s221 : String := String.mk (List.replicate 221 'x')

/-! Helper lemmas about the embedded operations. -/

theorem saveDoc_activities (st : St) (d : Doc) :
    (saveDoc st d).activities = st.activities := rfl

theorem applyPatchAndAI_fst_versions (env : AIEnv) (d0 : Doc)
    (t c : Option String) (g : Option (List String)) :
    (applyPatchAndAI env d0 t c g).1.versions = d0.versions := by
  simp only [applyPatchAndAI]
  split
  · split <;> rfl
  · rfl

theorem applyPatchAndAI_snd_content (env : AIEnv) (d0 : Doc)
    (t c : Option String) (g : Option (List String)) :
    (applyPatchAndAI env d0 t c g).2.content
      = match c with | none => false | some cc => !(cc == d0.content) := by
  simp only [applyPatchAndAI]
  split
  · split <;> rfl
  · rfl

theorem applyPatchAndAI_none_none (env : AIEnv) (d0 : Doc)
    (g : Option (List String)) :
    applyPatchAndAI env d0 none none g
      = ({ d0 with tags := g.getD d0.tags },
         ⟨false, false,
          (match g with | none => false | some gl => !(gl == d0.tags)), false⟩) :=
  rfl

theorem createVersion_error (d : Doc) (u : User) (ch : ChangeFlags)
    (hv : d.versions ≠ [])
    (hch : (ch.title || ch.content || ch.tags || ch.summary) = true) :
    createVersion d u ch = .error JsError.typeError := by
  obtain ⟨x, hx⟩ : ∃ x, d.versions.getLast? = some x := by
    cases h : d.versions.getLast? with
    | some x => exact ⟨x, rfl⟩
    | none => exact absurd (List.getLast?_eq_none_iff.mp h) hv
  simp [createVersion, hx, hch]

theorem updateDocument_change_crashes (env : AIEnv) (actOk : Bool) (u : User)
    (docId : Nat) (t c : Option String) (g : Option (List String)) (st : St)
    (d : Doc)
    (hfind : findById st docId = some d)
    (hmod : canModify u d = true)
    (hv : d.versions ≠ [])
    (hch : ((applyPatchAndAI env d t c g).2.title
        || (applyPatchAndAI env d t c g).2.content
        || (applyPatchAndAI env d t c g).2.tags
        || (applyPatchAndAI env d t c g).2.summary) = true) :
    updateDocument env actOk u docId t c g st
      = .error ⟨500, "Failed to update document"⟩ := by
  have hv1 : (applyPatchAndAI env d t c g).1.versions ≠ [] := by
    rw [applyPatchAndAI_fst_versions]
    exact hv
  simp only [updateDocument, hfind]
  rw [hmod, if_neg (by simp), if_pos hch,
      createVersion_error _ _ _ hv1 hch]

theorem updateDocument_appends_at_most_one (env : AIEnv) (actOk : Bool)
    (u : User) (docId : Nat) (t c : Option String) (g : Option (List String))
    (st : St) (p : St × Doc)
    (h : updateDocument env actOk u docId t c g st = .ok p) :
    p.1.activities = st.activities ∨
      (actOk = true ∧ ∃ r, p.1.activities = st.activities ++ [r] ∧
        r.action = ActionKind.updated) := by
  simp only [updateDocument] at h
  split at h
  · exact absurd h (by simp)
  · split at h
    · exact absurd h (by simp)
    · split at h
      · split at h
        · exact absurd h (by simp)
        · rw [Except.ok.injEq] at h
          subst h
          cases actOk with
          | false => exact Or.inl rfl
          | true => exact Or.inr ⟨rfl, _, rfl, rfl⟩
      · rw [Except.ok.injEq] at h
        subst h
        exact Or.inl rfl

/-- C10: with the Gemini client unavailable or the call failing,
summarizeText returns any text of at most 220 characters unchanged
(including lengths 201-220) and otherwise the first 200 characters
followed by the single ellipsis character. -/
theorem c10_summarize_degraded (ready : Bool) (ai : String → Option String)
    (text : String) (h : ready = false ∨ ai text = none) :
    (text.length ≤ 220 → summarizeText ready ai text = text) ∧
    (220 < text.length → summarizeText ready ai text = (text.take 200) ++ "…") := by
  have hfb : summarizeText ready ai text = summarizeFallback text := by
    rcases h with rfl | h
    · rfl
    · cases ready
      · rfl
      · simp [summarizeText, h]
  refine ⟨fun hle => ?_, fun hgt => ?_⟩
  · rw [hfb]
    simp only [summarizeFallback]
    rw [if_neg (by omega)]
  · rw [hfb]
    simp only [summarizeFallback]
    rw [if_pos (by omega)]

/-- C10 witness: with the client unavailable, a 210-character text (inside
the 201-220 band) is returned untruncated and a 221-character text is
truncated to 200 characters plus an ellipsis. -/
theorem c10_summarize_degraded_witness :
    summarizeText false (fun _ => none) s210 = s210 ∧
    summarizeText false (fun _ => none) s221 = (s221.take 200) ++ "…" :=
  ⟨(c10_summarize_degraded false (fun _ => none) s210 (Or.inl rfl)).1 (by decide),
   (c10_summarize_degraded false (fun _ => none) s221 (Or.inl rfl)).2 (by decide)⟩

/-- C9: a successful create of a document with non-empty title and content
yields currentVersion 1, a ledger holding exactly the one entry with
versionNumber 1, all four change flags true and the empty default diff,
and appends exactly one activity record, of kind `created`. -/
theorem c9_create_initial_version (env : AIEnv) (u : User) (t c : String)
    (g : Option (List String)) (st : St)
    (ht : (t == "") = false) (hc : (c == "") = false) :
    (createDocument env true u t c g st).toOption.map
      (fun p => (p.2.currentVersion, p.2.versions,
                 p.1.activities.map (fun a => a.action)))
    = some (1,
        [{ versionNumber := 1, title := t, content := c, summary := env.summarize c,
           tags := g.getD (env.genTags (t ++ "\n" ++ c) 6), editedBy := u.id,
           changes := ⟨true, true, true, true⟩, diff := {} }],
        st.activities.map (fun a => a.action) ++ [ActionKind.created]) := by
  simp [createDocument, preSaveNew, logActivity, ht, hc, Except.toOption]

/-- C9 witness: creating "T"/"C" with no caller tags in the empty state. -/
theorem c9_create_initial_version_witness :
    (createDocument degradedAI true owner "T" "C" none stEmpty).toOption.map
      (fun p => (p.2.currentVersion, p.2.versions,
                 p.1.activities.map (fun a => a.action)))
    = some (1,
        [{ versionNumber := 1, title := "T", content := "C",
           summary := degradedAI.summarize "C",
           tags := (none : Option (List String)).getD
             (degradedAI.genTags ("T" ++ "\n" ++ "C") 6),
           editedBy := owner.id, changes := ⟨true, true, true, true⟩, diff := {} }],
        stEmpty.activities.map (fun a => a.action) ++ [ActionKind.created]) :=
  c9_create_initial_version degradedAI owner "T" "C" none stEmpty (by decide) (by decide)

/-- C5 counterexample: with the AI suggesting tag "y", creating with
caller tags ["x"] stores ["x"] — `tags: tags || autoTags` substitutes the
caller's tags for the AI tags instead of merging; the deduplicated capped
union (the legacy controller's expression) would be ["x", "y"]. -/
theorem c5_counterexample :
    ((createDocument envC5 true owner "T" "C" (some ["x"]) stEmpty).toOption.map
      (fun p => p.2.tags)) = some ["x"] ∧
    legacyCreateTags envC5 "T" "C" (some ["x"]) = ["x", "y"] ∧
    (["x"] : List String) ≠ ["x", "y"] := by decide

/-- C5 amended: in the transactional controller the created document's
tags are exactly the caller-supplied tags when present (no merge, dedup
or cap) and exactly the AI-suggested tags otherwise. -/
theorem c5_create_tags_substitution (env : AIEnv) (actOk : Bool) (u : User)
    (t c : String) (g : Option (List String)) (st : St)
    (ht : (t == "") = false) (hc : (c == "") = false) :
    (createDocument env actOk u t c g st).toOption.map (fun p => p.2.tags)
      = some (g.getD (env.genTags (t ++ "\n" ++ c) 6)) := by
  simp [createDocument, preSaveNew, ht, hc, Except.toOption]

/-- C5 amended witness: the concrete substitution instance. -/
theorem c5_create_tags_substitution_witness :
    (createDocument envC5 true owner "T" "C" (some ["x"]) stEmpty).toOption.map
      (fun p => p.2.tags)
      = some ((some ["x"]).getD (envC5.genTags ("T" ++ "\n" ++ "C") 6)) :=
  c5_create_tags_substitution envC5 true owner "T" "C" (some ["x"]) stEmpty
    (by decide) (by decide)

/-- C1 (code bug): restoring to a retained version never succeeds — the
target being found makes the ledger nonempty, all four change flags are
passed true, and createVersion throws the TypeError on the missing diff
key, so restoreVersion returns 500 and commits nothing: no snapshot
version, no counter bump, no field overwrite.  Evaluated at the failing
input (document 7 at version 5 restored to retained version 2, title "B")
and proved for every found target. -/
theorem c1_restore_crashes :
    restoreVersion true owner 7 2 stC1
      = .error ⟨500, "Failed to restore document version"⟩ ∧
    (∀ (actOk : Bool) (u : User) (docId vn : Nat) (st : St) (d : Doc)
       (target : Version),
      findById st docId = some d →
      canModify u d = true →
      d.versions.find? (fun v => v.versionNumber == vn) = some target →
      restoreVersion actOk u docId vn st
        = .error ⟨500, "Failed to restore document version"⟩) := by
  constructor
  · decide
  · intro actOk u docId vn st d target hfind hmod htgt
    have hv : d.versions ≠ [] := by
      intro hnil
      rw [hnil] at htgt
      exact absurd htgt (by simp)
    simp only [restoreVersion, hfind]
    rw [hmod, if_neg (by simp)]
    simp only [htgt]
    rw [createVersion_error d u _ hv (by rfl)]

/-- C1 witness: the general crash conjunct applied to the concrete
restore of document 7 to version 2 with a failing audit write. -/
theorem c1_restore_crashes_witness :
    restoreVersion false owner 7 2 stC1
      = .error ⟨500, "Failed to restore document version"⟩ :=
  c1_restore_crashes.2 false owner 7 2 stC1 docC1 (mkVer 2 "B" "bc" "bs" ["bt"])
    (by decide) (by decide) (by decide)

/-- C4 counterexample: updating a document whose tags are ["a", "b"] with
the set-equal reordering ["b", "a"] is not a no-op update: the
order-sensitive JSON.stringify comparison marks tags as changed and the
update fails with the 500 TypeError from createVersion, while the
same-order payload ["a", "b"] is a genuine successful no-op (zero
activities, ledger still one entry). -/
theorem c4_counterexample :
    updateDocument degradedAI true owner 3 none none (some ["b", "a"]) stC4
      = .error ⟨500, "Failed to update document"⟩ ∧
    (["b", "a"] : List String).Perm ["a", "b"] ∧
    ((updateDocument degradedAI true owner 3 none none (some ["a", "b"])
        stC4).toOption.map
      (fun p => (p.1.activities.length, p.2.versions.length))) = some (0, 1) := by
  decide

/-- C4 amended: an update whose patch values are strictly equal to the
current values — tags compared as equal lists in the same order — is a
successful no-op appending zero ledger entries and zero activity records;
the same tags in a different order count as a change under the
JSON.stringify comparison, and such an update fails with 500 (TypeError
in createVersion), likewise leaving ledger and activity log unchanged. -/
theorem c4_noop_update :
    (∀ (env : AIEnv) (actOk : Bool) (u : User) (docId : Nat) (st : St) (d : Doc)
       (t : Option String) (c : Option String) (g : Option (List String)),
      findById st docId = some d →
      canModify u d = true →
      (t = none ∨ t = some d.title) →
      (c = none ∨ c = some d.content) →
      (g = none ∨ g = some d.tags) →
      (updateDocument env actOk u docId t c g st).toOption.map
        (fun p => (p.1.activities, p.2.versions, p.2.currentVersion))
      = some (st.activities, d.versions, d.currentVersion)) ∧
    (∀ (env : AIEnv) (actOk : Bool) (u : User) (docId : Nat) (st : St) (d : Doc)
       (g : List String),
      findById st docId = some d →
      canModify u d = true →
      d.versions ≠ [] →
      (g == d.tags) = false →
      updateDocument env actOk u docId none none (some g) st
        = .error ⟨500, "Failed to update document"⟩) := by
  constructor
  · intro env actOk u docId st d t c g hfind hmod ht hc hg
    rcases ht with rfl | rfl <;> rcases hc with rfl | rfl <;> rcases hg with rfl | rfl <;>
      simp [updateDocument, applyPatchAndAI, hfind, hmod, saveDoc, Except.toOption]
  · intro env actOk u docId st d g hfind hmod hv hne
    have hgt : (applyPatchAndAI env d none none (some g)).2.tags = true := by
      rw [applyPatchAndAI_none_none]
      simp [hne]
    exact updateDocument_change_crashes env actOk u docId none none (some g) st d
      hfind hmod hv (by simp [hgt])

/-- C4 witness: the same-order no-op and the reordered 500 at concrete
inputs. -/
theorem c4_noop_update_witness :
    ((updateDocument degradedAI true owner 3 none none (some ["a", "b"])
        stC4).toOption.map
      (fun p => (p.1.activities, p.2.versions, p.2.currentVersion)))
      = some (stC4.activities, docC4.versions, docC4.currentVersion) ∧
    updateDocument degradedAI false owner 3 none none (some ["b", "a"]) stC4
      = .error ⟨500, "Failed to update document"⟩ :=
  ⟨c4_noop_update.1 degradedAI true owner 3 stC4 docC4 none none (some ["a", "b"])
      (by decide) (by decide) (Or.inl rfl) (Or.inl rfl) (Or.inr rfl),
   c4_noop_update.2 degradedAI false owner 3 stC4 docC4 ["b", "a"]
      (by decide) (by decide) (by decide) (by decide)⟩

/-- C3 (code bug): every content-changing update throws the TypeError in
createVersion and returns 500 with nothing committed: after 11 attempted
content-changing updates the ledger still holds only version 1 and the
activity log contains just the one `created` record and zero `updated`
records; in general an update with changed content on a document with a
nonempty ledger errors with 500. -/
theorem c3_updates_crash :
    ((findById c3Final 7).map (fun d => d.versions.map (fun v => v.versionNumber)))
      = some [1] ∧
    (c3Final.activities.filter
        (fun a => decide (a.action = ActionKind.updated))).length = 0 ∧
    c3Final.activities.length = 1 ∧
    (∀ (env : AIEnv) (actOk : Bool) (u : User) (docId : Nat) (st : St)
       (d : Doc) (ct : String),
      findById st docId = some d →
      canModify u d = true →
      d.versions ≠ [] →
      (ct == d.content) = false →
      updateDocument env actOk u docId none (some ct) none st
        = .error ⟨500, "Failed to update document"⟩) := by
  refine ⟨by decide, by decide, by decide, ?_⟩
  intro env actOk u docId st d ct hfind hmod hv hne
  have hcc : (applyPatchAndAI env d none (some ct) none).2.content = true := by
    rw [applyPatchAndAI_snd_content]
    simp [hne]
  exact updateDocument_change_crashes env actOk u docId none (some ct) none st d
    hfind hmod hv (by simp [hcc])

/-- C3 witness: the general crash conjunct at the first concrete
content-changing update of the scenario. -/
theorem c3_updates_crash_witness :
    updateDocument degradedAI true owner 7 none (some "b1") none c3Init
      = .error ⟨500, "Failed to update document"⟩ :=
  c3_updates_crash.2.2.2 degradedAI true owner 7 c3Init c3Doc "b1"
    (by decide) (by decide) (by decide) (by decide)

/-- C6 counterexample: the transactional create stores 11 caller-supplied
tags unmodified, committing a document whose tags exceed the cap of 10. -/
theorem c6_counterexample :
    ((createDocument degradedAI true owner "T" "C"
        (some ["t1", "t2", "t3", "t4", "t5", "t6", "t7", "t8", "t9", "t10", "t11"])
        stEmpty).toOption.map (fun p => p.2.tags.length)) = some 11 ∧
    ¬ ((11 : Nat) ≤ 10) := by decide

/-- C6 amended: forceTags always stores at most 10 tags, but the
transactional create stores caller-supplied tags unmodified (no dedup, no
cap), so the 10-entry bound is not an invariant of every committed
operation that sets a document's tags. -/
theorem c6_tags_cap_not_invariant :
    (∀ (env : AIEnv) (u : User) (docId : Nat) (st : St),
      match forceTags env u docId st with
      | .ok p => p.2.tags.length ≤ 10
      | .error _ => True) ∧
    (∀ (env : AIEnv) (actOk : Bool) (u : User) (t c : String) (g : List String)
       (st : St),
      match createDocument env actOk u t c (some g) st with
      | .ok p => p.2.tags = g
      | .error _ => True) := by
  constructor
  · intro env u docId st
    simp only [forceTags]
    cases findById st docId with
    | none => trivial
    | some d =>
      cases hcm : canModify u d with
      | false => simp [hcm]
      | true =>
        simp only [hcm, Bool.not_true, Bool.false_eq_true, if_false]
        simp [List.length_take]
  · intro env actOk u t c g st
    simp only [createDocument]
    split
    · rename_i p hp
      split at hp
      · exact absurd hp (by simp)
      · rw [Except.ok.injEq] at hp
        subst hp
        rfl
    · trivial

/-- C7: soft deletion keeps the record, the ledger and the activity
history (which the claim correctly states), but the default-scope listing
does NOT omit the soft-deleted document: getDocuments builds its filter
without any isDeleted condition, even though the model defines the
findActive scope for exactly that purpose.  Evaluated at the failing
input: document 9 soft-deleted, listing queried with no filters. -/
theorem c7_soft_delete_visibility :
    (getDocuments none none none stC7del).map (fun d => (d.id, d.isDeleted))
      = [(9, true)] ∧
    findActive stC7del = [] ∧
    ((findById stC7del 9).map (fun d => (d.versions, d.isDeleted)))
      = some (docC7.versions, true) ∧
    (activitiesForDoc stC7del 9).map (fun a => a.action)
      = [ActionKind.created, ActionKind.deleted] := by decide

/-- C8: a failed activity (audit) write never fails or rolls back the
enclosing mutation: for create, update, delete and restore the
document-side result (documents collection and returned value, including
the 500s that update and restore produce on their own) is identical
whether the audit write succeeds or fails, and on a failed audit write
the activity log is left exactly as it was. -/
theorem c8_audit_failure_isolated :
    (∀ (env : AIEnv) (u : User) (t c : String) (g : Option (List String)) (st : St),
      (createDocument env false u t c g st).map (fun p => (p.1.docs, p.2))
        = (createDocument env true u t c g st).map (fun p => (p.1.docs, p.2)) ∧
      (match createDocument env false u t c g st with
       | .ok p => p.1.activities = st.activities
       | .error _ => True)) ∧
    (∀ (env : AIEnv) (u : User) (docId : Nat) (t c : Option String)
       (g : Option (List String)) (st : St),
      (updateDocument env false u docId t c g st).map (fun p => (p.1.docs, p.2))
        = (updateDocument env true u docId t c g st).map (fun p => (p.1.docs, p.2)) ∧
      (match updateDocument env false u docId t c g st with
       | .ok p => p.1.activities = st.activities
       | .error _ => True)) ∧
    (∀ (u : User) (docId : Nat) (st : St),
      (deleteDocument false u docId st).map St.docs
        = (deleteDocument true u docId st).map St.docs ∧
      (match deleteDocument false u docId st with
       | .ok s => s.activities = st.activities
       | .error _ => True)) ∧
    (∀ (u : User) (docId vn : Nat) (st : St),
      (restoreVersion false u docId vn st).map (fun p => (p.1.docs, p.2))
        = (restoreVersion true u docId vn st).map (fun p => (p.1.docs, p.2)) ∧
      (match restoreVersion false u docId vn st with
       | .ok p => p.1.activities = st.activities
       | .error _ => True)) := by
  refine ⟨fun env u t c g st => ⟨?_, ?_⟩, fun env u docId t c g st => ⟨?_, ?_⟩,
          fun u docId st => ⟨?_, ?_⟩, fun u docId vn st => ⟨?_, ?_⟩⟩
  · simp only [createDocument]
    split <;> rfl
  · simp only [createDocument]
    split
    · rename_i p hp
      split at hp
      · exact absurd hp (by simp)
      · rw [Except.ok.injEq] at hp
        subst hp
        rfl
    · trivial
  · simp only [updateDocument]
    split
    · rfl
    · split
      · rfl
      · split
        · split <;> rfl
        · rfl
  · cases hq : updateDocument env false u docId t c g st with
    | error e => trivial
    | ok p =>
      rcases updateDocument_appends_at_most_one env false u docId t c g st p hq
        with h | ⟨hx, _⟩
      · exact h
      · exact absurd hx (by simp)
  · simp only [deleteDocument]
    split
    · rfl
    · split <;> rfl
  · simp only [deleteDocument]
    split
    · rename_i s hp
      split at hp
      · exact absurd hp (by simp)
      · split at hp
        · exact absurd hp (by simp)
        · rw [Except.ok.injEq] at hp
          subst hp
          rfl
    · trivial
  · simp only [restoreVersion]
    split
    · rfl
    · split
      · rfl
      · split
        · rfl
        · split <;> rfl
  · simp only [restoreVersion]
    split
    · rename_i p hp
      split at hp
      · exact absurd hp (by simp)
      · split at hp
        · exact absurd hp (by simp)
        · split at hp
          · exact absurd hp (by simp)
          · split at hp
            · exact absurd hp (by simp)
            · rw [Except.ok.injEq] at hp
              subst hp
              rfl
    · trivial

end KnowledgeHub
